import Mathlib

/-!
Verification development for `bpm-tap-sync`, a live tempo control tool:
a tap-tempo / BPM engine whose state is broadcast to UI sessions over
WebSocket and fanned out to three OSC output targets (MA3 console,
Resolume, HeavyM).

The repository sources available here are the README and the React
frontend (`frontend/src/App.tsx` and its variants).  The backend engine
(`backend/src/bpm_tap_sync/engine.py`, `osc.py`) is not present, so the
engine-side data model and commands are modelled from the specification;
each such definition says so in its doc comment.  Frontend logic
(`applyHeavymOsc`, `emitTap`, `send`, the nudge-button table, the BPM
display) is embedded directly from the TypeScript source.

Numbers are modelled as rationals (`ℚ`): every arithmetic operation the
claims exercise (clamping, linear normalization, means) is exact on the
concrete values involved.
-/

namespace BpmTapSync

/-- Clamp `x` into the closed interval `[lo, hi]`. -/
def clampQ (x lo hi : ℚ) : ℚ := max lo (min x hi)

/-- Engine-wide BPM bounds: the engine hard-clamps BPM to `[20, 300]`
(README: "BPM range clamping (20 to 300 in engine)"). -/
def bpmLo : ℚ := 20

/-- Upper engine BPM bound. -/
def bpmHi : ℚ := 300

/-- BPM is inside the engine's hard-clamp range. -/
def bpmInRange (b : ℚ) : Prop := bpmLo ≤ b ∧ b ≤ bpmHi

instance (b : ℚ) : Decidable (bpmInRange b) := by
  unfold bpmInRange; infer_instance

/-- Modelled from the spec: the authoritative `TempoState` of the Tempo
Clock (`engine.py` is not in the sources).  Fields per spec §3. -/
structure TempoState where
  bpm : ℚ
  beat : ℕ
  bar : ℕ
  running : Bool
  metronome : Bool
  round_whole_bpm : Bool
  deriving Repr, DecidableEq

/-- Modelled from the spec: initial state `RUNNING` at default BPM 120
with `beat = 1, bar = 1` (spec §4.2). -/
def defaultTempoState : TempoState :=
  { bpm := 120, beat := 1, bar := 1, running := true,
    metronome := false, round_whole_bpm := true }

/-! ## Interval Estimator (spec §4.1; `engine.py` not in sources) -/

/-- Modelled from the spec: rolling-buffer state of the Interval
Estimator — the timestamp of the previous tap and the bounded buffer of
recent inter-tap intervals (seconds). -/
structure EstimatorState where
  lastTap : Option ℚ
  buffer : List ℚ
  deriving Repr, DecidableEq

/-- Fresh estimator: no previous tap, empty buffer. -/
def emptyEstimator : EstimatorState := { lastTap := none, buffer := [] }

/-- Sequence timeout in seconds (spec §4.1 recommends 2.0 s). -/
def sequenceTimeout : ℚ := 2

/-- Rolling-buffer capacity (spec §4.1 recommends 4–8; we fix 8). -/
def bufferCapacity : ℕ := 8

/-- Lower edge of the outlier tolerance band (ratio to the median). -/
def outlierLo : ℚ := 1 / 2

/-- Upper edge of the outlier tolerance band (ratio to the median). -/
def outlierHi : ℚ := 2

/-- Insert into a sorted list of rationals, keeping it sorted. -/
def insertSorted (x : ℚ) : List ℚ → List ℚ
  | [] => [x]
  | y :: ys => if x ≤ y then x :: y :: ys else y :: insertSorted x ys

/-- Insertion sort of a list of rationals. -/
def sortQ (l : List ℚ) : List ℚ := l.foldr insertSorted []

/-- Median of a list (lower median for even length; 0 on empty — only
used on nonempty buffers). -/
def medianQ (l : List ℚ) : ℚ := (sortQ l).getD ((l.length - 1) / 2) 0

/-- Arithmetic mean of a list of rationals (0 on empty; only used on
nonempty buffers).  This realizes the spec's `smoothed_mean`; spec §9
leaves the exact smoothing formula open and §4.1 allows an arithmetic
mean. -/
def meanQ (l : List ℚ) : ℚ := l.sum / l.length

/-- Append to the rolling buffer, dropping the oldest interval when the
capacity is exceeded. -/
def pushBounded (x : ℚ) (l : List ℚ) : List ℚ :=
  if bufferCapacity < (l ++ [x]).length then (l ++ [x]).tail else l ++ [x]

/-- Modelled from the spec: `record_tap(timestamp) -> Option BpmEstimate`
(spec §4.1; `engine.py` not in sources).
* First tap ever: remember the timestamp, no estimate.
* Gap `≥` timeout: clear the buffer, start a new sequence, no estimate
  (spec §8: "a sequence with a gap ≥ timeout discards prior history").
* Otherwise: outlier rejection against the buffer median (band
  `[0.5×, 2×]`), always accepting when fewer than 2 samples are
  buffered; then the estimate is `60 / mean(buffer)` clamped to
  `[20, 300]` — clamped, never discarded. -/
def record_tap (t : ℚ) (st : EstimatorState) : EstimatorState × Option ℚ :=
  match st.lastTap with
  | none => ({ lastTap := some t, buffer := st.buffer }, none)
  | some p =>
    let gap := t - p
    if sequenceTimeout ≤ gap then
      ({ lastTap := some t, buffer := [] }, none)
    else
      let accept := st.buffer.length < 2 ∨
        (outlierLo * medianQ st.buffer ≤ gap ∧ gap ≤ outlierHi * medianQ st.buffer)
      let buf := if accept then pushBounded gap st.buffer else st.buffer
      let est := if buf.isEmpty then none else some (clampQ (60 / meanQ buf) bpmLo bpmHi)
      ({ lastTap := some t, buffer := buf }, est)

/-! ## BPM-mutating commands of the Tempo Clock (spec §4.2) -/

/-- The BPM-mutating commands of the Tempo Clock's command interface. -/
inductive BpmCmd
  | tap (t : ℚ)
  | set_bpm (v : ℚ)
  | nudge (d : ℚ)
  | halve
  | double
  deriving Repr, DecidableEq

/-- Engine state relevant to BPM mutation: the TempoState plus the
Interval Estimator's state. -/
structure EngineState where
  tempo : TempoState
  est : EstimatorState
  deriving Repr, DecidableEq

/-- Initial engine state. -/
def defaultEngineState : EngineState :=
  { tempo := defaultTempoState, est := emptyEstimator }

/-- Modelled from the spec: one BPM-mutating command applied to the
engine (spec §4.2; `engine.py` not in sources).
* `tap t` forwards `t` to the estimator; an estimate replaces `bpm`
  (subject to clamp) without touching `beat`/`bar`.
* `set_bpm v` → `bpm = clamp(v, 20, 300)`.
* `nudge d` → `bpm = clamp(bpm + d, 20, 300)`.
* `halve` / `double` → `bpm = clamp(bpm/2, 20, 300)` /
  `clamp(bpm*2, 20, 300)`. -/
def stepBpmCmd (s : EngineState) (c : BpmCmd) : EngineState :=
  match c with
  | .tap t =>
    let r := record_tap t s.est
    match r.2 with
    | none => { s with est := r.1 }
    | some e => { tempo := { s.tempo with bpm := clampQ e bpmLo bpmHi }, est := r.1 }
  | .set_bpm v => { s with tempo := { s.tempo with bpm := clampQ v bpmLo bpmHi } }
  | .nudge d => { s with tempo := { s.tempo with bpm := clampQ (s.tempo.bpm + d) bpmLo bpmHi } }
  | .halve => { s with tempo := { s.tempo with bpm := clampQ (s.tempo.bpm / 2) bpmLo bpmHi } }
  | .double => { s with tempo := { s.tempo with bpm := clampQ (s.tempo.bpm * 2) bpmLo bpmHi } }

/-- Run a sequence of BPM-mutating commands from the default state. -/
def runBpmCmds (cmds : List BpmCmd) : EngineState :=
  cmds.foldl stepBpmCmd defaultEngineState

/-! ## Routing Table & Output Adapters (spec §4.3; `osc.py` not in sources) -/

/-- The three fixed output names. -/
inductive OutputName
  | ma3
  | resolume
  | heavym
  deriving Repr, DecidableEq

/-- The fixed list of outputs, in fan-out order. -/
def allOutputs : List OutputName := [.ma3, .resolume, .heavym]

/-- Modelled from the spec: one `RoutingEntry` — per-output enablement
and address (spec §3). -/
structure RoutingEntry where
  enabled : Bool
  ip : String
  port : ℕ
  deriving Repr, DecidableEq

/-- The routing table: one entry per output name. -/
def RoutingTable := OutputName → RoutingEntry

/-- Modelled from the spec / README: HeavyM per-target OSC parameters —
configurable BPM and resync addresses, normalization min/max, resync
payload value, and the optional trailing-zero-after-resync flag. -/
structure HeavymOscSettings where
  bpm_address : String
  resync_address : String
  bpm_min : ℚ
  bpm_max : ℚ
  resync_value : ℚ
  resync_send_zero : Bool
  deriving Repr, DecidableEq

/-- Modelled from the spec / README: product-specific transform
parameters of the output adapters — the MA3 primary speed master plus
optional extra masters with multipliers, and the HeavyM settings. -/
structure OscConfig where
  ma3_primary_master : String
  ma3_extras : List (String × ℚ)
  heavym : HeavymOscSettings
  deriving Repr, DecidableEq

/-- Resolume's fixed normalization reference range, lower end
(README: "mapped from BPM range 20..500"). -/
def resolumeBpmMin : ℚ := 20

/-- Resolume's fixed normalization reference range, upper end. -/
def resolumeBpmMax : ℚ := 500

/-- Modelled from the spec: the general normalization formula used by
both normalized targets (spec §4.3):
`value = clamp((bpm - min) / (max - min), 0.0, 1.0)`. -/
def normalizeBpm (b mn mx : ℚ) : ℚ := clampQ ((b - mn) / (mx - mn)) 0 1

/-- One logical outbound OSC message. -/
inductive OscMsg
  | ma3Bpm (master : String) (v : ℚ)
  | resolumeTempo (v : ℚ)
  | resolumeResync
  | resolumeMetro
  | heavymBpm (address : String) (v : ℚ)
  | heavymResync (address : String) (v : ℚ)
  deriving Repr, DecidableEq

/-- Modelled from the spec: the messages one adapter emits for a
BPM/state change (spec §4.3): MA3 gets the BPM on the primary master and
each configured extra master (multiplied); Resolume gets the tempo
normalized over the fixed `20..500` range; HeavyM gets the tempo
normalized over its configured min/max, at its configured address. -/
def adapterBpmSends (o : OutputName) (cfg : OscConfig) (s : TempoState) : List OscMsg :=
  match o with
  | .ma3 =>
    OscMsg.ma3Bpm cfg.ma3_primary_master s.bpm ::
      cfg.ma3_extras.map (fun e => OscMsg.ma3Bpm e.1 (s.bpm * e.2))
  | .resolume => [OscMsg.resolumeTempo (normalizeBpm s.bpm resolumeBpmMin resolumeBpmMax)]
  | .heavym =>
    [OscMsg.heavymBpm cfg.heavym.bpm_address
      (normalizeBpm s.bpm cfg.heavym.bpm_min cfg.heavym.bpm_max)]

/-- Modelled from the spec: the messages one adapter emits for a
`resync()` (spec §4.3 / README "Resync action"): MA3 is pushed the
current BPM again unconditionally; Resolume gets its resync trigger;
HeavyM gets its configured resync value at its configured resync
address, optionally followed by a trailing zero. -/
def adapterResyncSends (o : OutputName) (cfg : OscConfig) (s : TempoState) : List OscMsg :=
  match o with
  | .ma3 => [OscMsg.ma3Bpm cfg.ma3_primary_master s.bpm]
  | .resolume => [OscMsg.resolumeResync]
  | .heavym =>
    OscMsg.heavymResync cfg.heavym.resync_address cfg.heavym.resync_value ::
      (if cfg.heavym.resync_send_zero
        then [OscMsg.heavymResync cfg.heavym.resync_address 0] else [])

/-- Modelled from the spec: every adapter independently checks `enabled`
before sending; a disabled adapter emits nothing (spec §4.3).  This
gates an arbitrary per-adapter message function. -/
def gatedSends (rt : RoutingTable) (f : OutputName → List OscMsg) :
    List (OutputName × OscMsg) :=
  allOutputs.flatMap fun o =>
    if (rt o).enabled then (f o).map (fun m => (o, m)) else []

/-- All packets emitted for one state change, across the three outputs. -/
def stateChangeSends (rt : RoutingTable) (cfg : OscConfig) (s : TempoState) :
    List (OutputName × OscMsg) :=
  gatedSends rt (fun o => adapterBpmSends o cfg s)

/-- All packets emitted for one `resync()`, across the three outputs. -/
def resyncSends (rt : RoutingTable) (cfg : OscConfig) (s : TempoState) :
    List (OutputName × OscMsg) :=
  gatedSends rt (fun o => adapterResyncSends o cfg s)

/-- Modelled from the spec: `resync()` resets `beat = 1, bar = 1` and
triggers an immediate forced resend to every enabled adapter,
regardless of whether BPM changed (spec §4.2, §4.3). -/
def resync (rt : RoutingTable) (cfg : OscConfig) (s : TempoState) :
    TempoState × List (OutputName × OscMsg) :=
  ({ s with beat := 1, bar := 1 }, resyncSends rt cfg s)

/-! ## Frontend embeddings (from `frontend/src/App.tsx` and the
`part_003` / `part_005` frontend variants) -/

/-- The inbound control messages the frontend can send, embedded from
the `ControlMsg` union type of the `part_005` frontend (a superset of
`frontend/src/App.tsx`'s).  Note there is no halve/double message: the
`/2` and `*2` buttons go through `set_bpm`. -/
inductive ControlMsg
  | tap
  | set_bpm (bpm : ℚ)
  | nudge (delta : ℚ)
  | resyncCmd
  | toggle_metronome
  | set_round_whole_bpm (enabled : Bool)
  | set_output_enabled (target : OutputName) (enabled : Bool)
  | set_output_target (target : OutputName) (ip : String) (port : ℕ)
  | set_heavym_osc (bpm_address resync_address : String) (bpm_min bpm_max resync_value : ℚ)
  | test_heavym_bpm (bpm : ℚ)
  | test_heavym_sync
  | get_settings
  deriving Repr, DecidableEq

/-- The `readyState` values of a browser WebSocket. -/
inductive WsReadyState
  | CONNECTING
  | OPEN
  | CLOSING
  | CLOSED
  deriving Repr, DecidableEq

/-- A WebSocket handle as the frontend sees it: just its ready state. -/
structure WebSocketHandle where
  readyState : WsReadyState
  deriving Repr, DecidableEq

/-- Embedded from `App.tsx` (`const send = (obj) => { const ws =
wsRef.current; if (!ws || ws.readyState !== WebSocket.OPEN) return;
ws.send(JSON.stringify(obj)); }`): the list of messages actually
transmitted — empty when the handle is null or not OPEN.  The function
is total: it returns on every input rather than raising. -/
def send (ws : Option WebSocketHandle) (m : ControlMsg) : List ControlMsg :=
  match ws with
  | none => []
  | some w => if w.readyState = WsReadyState.OPEN then [m] else []

/-- Embedded from `emitTap` (`part_003` / `part_005` frontends): given
the activation time `now` and the last-sent time, decide whether a tap
message is sent and what the new last-sent time is.
`if (now - lastTapSentAtRef.current < 22) return;` -/
def emitTap (now last : ℚ) : Bool × ℚ :=
  if now - last < 22 then (false, last) else (true, now)

/-- Fold `emitTap` over a list of tap-activation times, returning the
times at which a tap control message was actually sent. -/
def runTaps (last : ℚ) : List ℚ → List ℚ
  | [] => []
  | t :: ts => if t - last < 22 then runTaps last ts else t :: runTaps t ts

/-- The HeavyM settings draft the frontend edits: address strings plus
the numeric fields as `Number.parseFloat` results (`none` models NaN,
i.e. an unparseable field). -/
structure HeavymOscDraft where
  bpmAddress : String
  resyncAddress : String
  bpmMin : Option ℚ
  bpmMax : Option ℚ
  resyncValue : Option ℚ
  deriving Repr, DecidableEq

/-- Embedded from `applyHeavymOsc` (`part_003` lines 778–794 /
`part_005` lines 362–378): trims the addresses, and returns without
sending (`none`) when either address is empty, any numeric field fails
to parse, or `bpmMax <= bpmMin`; otherwise sends the `set_heavym_osc`
message. -/
def applyHeavymOsc (d : HeavymOscDraft) : Option ControlMsg :=
  let a := d.bpmAddress.trim
  let r := d.resyncAddress.trim
  match d.bpmMin, d.bpmMax, d.resyncValue with
  | some mn, some mx, some rv =>
    if a.isEmpty ∨ r.isEmpty then none
    else if mx ≤ mn then none
    else some (ControlMsg.set_heavym_osc a r mn mx rv)
  | _, _, _ => none

/-- Modelled from the spec: the backend's handling of a
`set_heavym_osc` routing-table update (spec §7: updates with
`max ≤ min` are "rejected outright (no state change, no broadcast)").
Returns the new settings and whether a settings broadcast is emitted. -/
def applySetHeavymOsc (cfg : HeavymOscSettings) (a r : String) (mn mx rv : ℚ) :
    HeavymOscSettings × Bool :=
  if mx ≤ mn then (cfg, false)
  else
    ({ cfg with
        bpm_address := a
        resync_address := r
        bpm_min := mn
        bpm_max := mx
        resync_value := rv }, true)

/-- Embedded from `App.tsx` lines 97–111: the nudge buttons offered by
the UI — only `±1.0` when whole-BPM rounding is on, `±1.0` and `±0.1`
when it is off.  Pairs are (label, delta). -/
def nudgeButtons (round_whole_bpm : Bool) : List (String × ℚ) :=
  if round_whole_bpm then
    [("-1", -1), ("+1", 1)]
  else
    [("-1", -1), ("-0.1", -1/10), ("+0.1", 1/10), ("+1", 1)]

/-- Embedded from `App.tsx` line 389
(`round_whole_bpm ? state.bpm.toFixed(0) : state.bpm.toFixed(1)`): the
numeric value the UI displays — BPM quantized to an integer when
rounding is on, to one decimal when it is off (`round` models JS
`toFixed`'s round-to-nearest on exact rationals). -/
def displayedBpm (round_whole_bpm : Bool) (b : ℚ) : ℚ :=
  if round_whole_bpm then ((round b : ℤ) : ℚ) else ((round (10 * b) : ℤ) : ℚ) / 10

/-- Modelled from the spec: `toggle_round_whole_bpm()` flips the
display-quantization flag and nothing else (spec §4.2). -/
def toggle_round_whole_bpm (s : TempoState) : TempoState :=
  { s with round_whole_bpm := !s.round_whole_bpm }

/-- Modelled from the spec: `set_round_whole_bpm(enabled)` sets the
display-quantization flag and nothing else (spec §4.2). -/
def set_round_whole_bpm (e : Bool) (s : TempoState) : TempoState :=
  { s with round_whole_bpm := e }

/-- Embedded from `App.tsx` line 510: the `/2` button sends
`set_bpm` with half the currently displayed state's BPM. -/
def halveButtonMsg (displayed : TempoState) : ControlMsg :=
  ControlMsg.set_bpm (displayed.bpm / 2)

/-- Embedded from `App.tsx` line 517: the `*2` button sends
`set_bpm` with double the currently displayed state's BPM. -/
def doubleButtonMsg (displayed : TempoState) : ControlMsg :=
  ControlMsg.set_bpm (displayed.bpm * 2)

/-! ## State-change traces (for the temporal enable/disable claim) -/

/-- One state-changed event as the adapters see it: the routing table
and adapter configuration in force at send time, and the TempoState
snapshot being fanned out (spec §4.3: parameters are "pulled from its
RoutingEntry at send time"). -/
structure ChangeEvent where
  rt : RoutingTable
  cfg : OscConfig
  s : TempoState

/-- All packets emitted over a sequence of state-changed events. -/
def traceSends (evs : List ChangeEvent) : List (OutputName × OscMsg) :=
  evs.flatMap fun e => stateChangeSends e.rt e.cfg e.s

/-- The packets a given output receives over a trace, in order. -/
def sentTo (o : OutputName) (evs : List ChangeEvent) : List OscMsg :=
  (traceSends evs).filterMap fun p => if p.1 = o then some p.2 else none

/-! ## Sample configuration (concrete instantiations for witnesses) -/

/-- A sample routing entry, matching the README defaults. -/
def sampleEntry : RoutingEntry := { enabled := true, ip := "127.0.0.1", port := 8001 }

/-- A sample routing table with every output enabled. -/
def sampleRt : RoutingTable := fun _ => sampleEntry

/-- A sample routing table with the HeavyM output disabled. -/
def sampleRtHeavymOff : RoutingTable := fun o =>
  if o = OutputName.heavym then { sampleEntry with enabled := false } else sampleEntry

/-- Sample HeavyM settings, matching the README defaults. -/
def sampleHeavym : HeavymOscSettings :=
  { bpm_address := "/tempo/bpm", resync_address := "/tempo/resync",
    bpm_min := 20, bpm_max := 999, resync_value := 1, resync_send_zero := false }

/-- Sample adapter configuration, matching the README defaults. -/
def sampleCfg : OscConfig :=
  { ma3_primary_master := "3.16", ma3_extras := [], heavym := sampleHeavym }

/-! ## Helper lemmas -/

/-- Any clamp into `[20, 300]` lands in range. -/
theorem clampQ_bpm_range (x : ℚ) : bpmInRange (clampQ x bpmLo bpmHi) := by
  constructor
  · exact le_max_left _ _
  · apply max_le
    · norm_num [bpmLo, bpmHi]
    · exact le_trans (min_le_right _ _) le_rfl

/-- Every BPM-mutating command preserves the BPM range invariant. -/
theorem stepBpmCmd_preserves (s : EngineState) (c : BpmCmd)
    (h : bpmInRange s.tempo.bpm) : bpmInRange (stepBpmCmd s c).tempo.bpm := by
  cases c with
  | tap t =>
    simp only [stepBpmCmd]
    cases hr : (record_tap t s.est).2 with
    | none => simpa using h
    | some e => simpa using clampQ_bpm_range e
  | set_bpm v => simpa [stepBpmCmd] using clampQ_bpm_range v
  | nudge d => simpa [stepBpmCmd] using clampQ_bpm_range _
  | halve => simpa [stepBpmCmd] using clampQ_bpm_range _
  | double => simpa [stepBpmCmd] using clampQ_bpm_range _

/-- The invariant propagates along any command list. -/
theorem foldl_stepBpmCmd_preserves (cmds : List BpmCmd) (s : EngineState)
    (h : bpmInRange s.tempo.bpm) :
    bpmInRange (cmds.foldl stepBpmCmd s).tempo.bpm := by
  induction cmds generalizing s with
  | nil => exact h
  | cons c cs ih => exact ih _ (stepBpmCmd_preserves s c h)

/-- The rolling buffer is never emptied by an insertion. -/
theorem pushBounded_ne_nil (x : ℚ) (l : List ℚ) : pushBounded x l ≠ [] := by
  unfold pushBounded
  by_cases h : bufferCapacity < (l ++ [x]).length
  · rw [if_pos h]
    intro he
    have h1 : (l ++ [x]).length - 1 = 0 := by rw [← List.length_tail, he]; rfl
    have h2 : (l ++ [x]).length = l.length + 1 := by simp
    unfold bufferCapacity at h
    omega
  · rw [if_neg h]
    simp

/-- Inside a running sequence (previous tap present, gap below the
timeout), `record_tap` always leaves a nonempty buffer and emits the
estimate `60 / mean(buffer)` clamped to `[20, 300]`. -/
theorem record_tap_in_sequence (st : EstimatorState) (t p : ℚ)
    (h : st.lastTap = some p) (hlt : t - p < sequenceTimeout) :
    (record_tap t st).1.buffer ≠ [] ∧
    (record_tap t st).2
      = some (clampQ (60 / meanQ (record_tap t st).1.buffer) bpmLo bpmHi) := by
  obtain ⟨lt, bufl⟩ := st
  simp only at h
  subst h
  have hgate : ¬ sequenceTimeout ≤ t - p := not_le.mpr hlt
  by_cases hacc : bufl.length < 2 ∨
      (outlierLo * medianQ bufl ≤ t - p ∧ t - p ≤ outlierHi * medianQ bufl)
  · have hne : pushBounded (t - p) bufl ≠ [] := pushBounded_ne_nil _ _
    have hre : record_tap t ⟨some p, bufl⟩ =
        ({ lastTap := some t, buffer := pushBounded (t - p) bufl },
          some (clampQ (60 / meanQ (pushBounded (t - p) bufl)) bpmLo bpmHi)) := by
      simp only [record_tap]
      rw [if_neg hgate, if_pos hacc,
        if_neg (by simp [hne] : ¬ ((pushBounded (t - p) bufl).isEmpty = true))]
    rw [hre]
    exact ⟨hne, rfl⟩
  · have hlen : ¬ bufl.length < 2 := fun hl => hacc (Or.inl hl)
    have hne : bufl ≠ [] := by
      intro he
      rw [he] at hlen
      simp at hlen
    have hre : record_tap t ⟨some p, bufl⟩ =
        ({ lastTap := some t, buffer := bufl },
          some (clampQ (60 / meanQ bufl) bpmLo bpmHi)) := by
      simp only [record_tap]
      rw [if_neg hgate, if_neg hacc,
        if_neg (by simp [hne] : ¬ (bufl.isEmpty = true))]
    rw [hre]
    exact ⟨hne, rfl⟩

/-- Selecting output `o`'s packets from messages tagged for output
`o'` yields all of them when `o' = o` and none otherwise. -/
theorem filterMap_tagged (o o' : OutputName) (ms : List OscMsg) :
    (ms.map fun m => (o', m)).filterMap
        (fun p => if p.1 = o then some p.2 else none)
      = if o' = o then ms else [] := by
  induction ms with
  | nil => simp
  | cons m ms ih =>
    simp only [List.map_cons, List.filterMap_cons]
    by_cases h : o' = o
    · subst h
      simp [ih]
    · simp [h, ih]

/-- Selecting output `o`'s packets from one enabled-gated chunk. -/
theorem filterMap_gatedChunk (rt : RoutingTable) (o o' : OutputName) (ms : List OscMsg) :
    (if (rt o').enabled then ms.map (fun m => (o', m)) else []).filterMap
        (fun p => if p.1 = o then some p.2 else none)
      = if o' = o ∧ (rt o').enabled then ms else [] := by
  by_cases h : (rt o').enabled
  · simp only [if_pos h, filterMap_tagged]
    by_cases ho : o' = o
    · subst ho
      simp [h]
    · simp [ho]
  · simp [h]

/-- The packets output `o` receives from a single state change are
exactly its adapter's messages when it is enabled, nothing otherwise. -/
theorem stateChange_sentTo_single (rt : RoutingTable) (cfg : OscConfig) (s : TempoState)
    (o : OutputName) :
    (stateChangeSends rt cfg s).filterMap
        (fun p => if p.1 = o then some p.2 else none)
      = if (rt o).enabled then adapterBpmSends o cfg s else [] := by
  simp only [stateChangeSends, gatedSends, allOutputs, List.flatMap_cons,
    List.flatMap_nil, List.append_nil, List.filterMap_append, filterMap_gatedChunk]
  cases o <;> simp

/-- Over a whole trace, the packets output `o` receives are exactly the
per-event adapter messages of the events at which `o` was enabled. -/
theorem sentTo_filter_enabled (o : OutputName) (evs : List ChangeEvent) :
    sentTo o evs
      = (evs.filter fun e => (e.rt o).enabled).flatMap
          fun e => adapterBpmSends o e.cfg e.s := by
  induction evs with
  | nil => simp [sentTo, traceSends]
  | cons e evs ih =>
    simp only [sentTo, traceSends, List.flatMap_cons, List.filterMap_append] at ih ⊢
    rw [stateChange_sentTo_single]
    by_cases h : (e.rt o).enabled
    · simp [List.filter_cons, h, ih]
    · simp [List.filter_cons, h, ih]

/-- Every tap actually sent is at least 22 ms after the previous
last-sent time. -/
theorem runTaps_all_ge (ts : List ℚ) : ∀ (last e : ℚ),
    e ∈ runTaps last ts → last + 22 ≤ e := by
  induction ts with
  | nil =>
    intro last e he
    simp [runTaps] at he
  | cons t ts ih =>
    intro last e he
    unfold runTaps at he
    split at he
    · exact ih last e he
    · rename_i hcond
      rcases List.mem_cons.mp he with rfl | hmem
      · linarith [not_lt.mp hcond]
      · have h1 := ih t e hmem
        have h2 := not_lt.mp hcond
        linarith

/-- Consecutive taps actually sent are at least 22 ms apart. -/
theorem runTaps_chain (ts : List ℚ) (last : ℚ) :
    List.Chain' (fun a b => a + 22 ≤ b) (runTaps last ts) := by
  induction ts generalizing last with
  | nil => simp [runTaps]
  | cons t ts ih =>
    unfold runTaps
    split
    · exact ih last
    · rw [List.chain'_cons']
      refine ⟨?_, ih t⟩
      intro b hb
      exact runTaps_all_ge ts t b (List.mem_of_mem_head? hb)

/-! ## Claim theorems -/

/-- C1: for every finite sequence of BPM-mutating commands (tap,
set_bpm, nudge, halve, double) applied from the default state, the
invariant `20 ≤ bpm ≤ 300` holds after every command (every prefix of a
command list is itself a command list, so the first conjunct covers
every intermediate state); and `nudge(delta)` yields exactly
`clamp(bpm + delta, 20, 300)`. -/
theorem bpm_range_invariant_all_commands :
    (∀ cmds : List BpmCmd, bpmInRange (runBpmCmds cmds).tempo.bpm) ∧
    (∀ (s : EngineState) (d : ℚ),
      (stepBpmCmd s (BpmCmd.nudge d)).tempo.bpm = clampQ (s.tempo.bpm + d) 20 300) := by
  constructor
  · intro cmds
    apply foldl_stepBpmCmd_preserves
    decide
  · intro s d
    rfl

/-- C2: `resync()` resets `beat = 1` and `bar = 1` and sends a message
to every enabled output, whatever the current state (in particular
whether or not BPM changed); the MA3 (console) target is pushed the
current BPM again unconditionally. -/
theorem resync_resets_phase_and_notifies_enabled (rt : RoutingTable) (cfg : OscConfig)
    (s : TempoState) :
    (resync rt cfg s).1.beat = 1 ∧ (resync rt cfg s).1.bar = 1 ∧
    (∀ o : OutputName, (rt o).enabled = true → ∃ m, (o, m) ∈ (resync rt cfg s).2) ∧
    ((rt OutputName.ma3).enabled = true →
      (OutputName.ma3, OscMsg.ma3Bpm cfg.ma3_primary_master s.bpm) ∈ (resync rt cfg s).2) := by
  refine ⟨rfl, rfl, ?_, ?_⟩
  · intro o ho
    cases o with
    | ma3 =>
      exact ⟨OscMsg.ma3Bpm cfg.ma3_primary_master s.bpm,
        by simp [resync, resyncSends, gatedSends, allOutputs, adapterResyncSends, ho]⟩
    | resolume =>
      exact ⟨OscMsg.resolumeResync,
        by simp [resync, resyncSends, gatedSends, allOutputs, adapterResyncSends, ho]⟩
    | heavym =>
      exact ⟨OscMsg.heavymResync cfg.heavym.resync_address cfg.heavym.resync_value,
        by simp [resync, resyncSends, gatedSends, allOutputs, adapterResyncSends, ho]⟩
  · intro ho
    simp [resync, resyncSends, gatedSends, allOutputs, adapterResyncSends, ho]

/-- Witness for C2 at the README-default configuration with all outputs
enabled. -/
theorem resync_resets_phase_witness :
    (∃ m, (OutputName.heavym, m) ∈ (resync sampleRt sampleCfg defaultTempoState).2) ∧
    (OutputName.ma3, OscMsg.ma3Bpm sampleCfg.ma3_primary_master defaultTempoState.bpm)
      ∈ (resync sampleRt sampleCfg defaultTempoState).2 :=
  ⟨(resync_resets_phase_and_notifies_enabled sampleRt sampleCfg defaultTempoState).2.2.1
      OutputName.heavym rfl,
    (resync_resets_phase_and_notifies_enabled sampleRt sampleCfg defaultTempoState).2.2.2 rfl⟩

/-- C3: for `max` strictly greater than `min`, the normalized output is
`clamp((bpm - min) / (max - min), 0, 1)`; with `min = 20, max = 999`
this is exactly `0` at `bpm = 20`, exactly `1` at `bpm = 999`, and
exactly `1/2` at `bpm = 509.5`. -/
theorem normalization_formula_and_endpoints :
    (∀ b mn mx : ℚ, mn < mx →
      normalizeBpm b mn mx = clampQ ((b - mn) / (mx - mn)) 0 1) ∧
    normalizeBpm 20 20 999 = 0 ∧
    normalizeBpm 999 20 999 = 1 ∧
    normalizeBpm (1019 / 2) 20 999 = 1 / 2 := by
  refine ⟨fun b mn mx _ => rfl, ?_, ?_, ?_⟩ <;>
    norm_num [normalizeBpm, clampQ, min_def, max_def]

/-- Witness for C3's general formula at `bpm = 120`, `min = 20`,
`max = 999`. -/
theorem normalization_formula_witness :
    normalizeBpm 120 20 999 = clampQ ((120 - 20) / (999 - 20)) 0 1 :=
  normalization_formula_and_endpoints.1 120 20 999 (by norm_num)

/-- C4: a HeavyM routing-table update with `bpm_max ≤ bpm_min` is
rejected outright — the frontend's `applyHeavymOsc` sends no message,
and the backend handler leaves the settings unchanged and emits no
settings broadcast — whereas runtime numeric input (`set_bpm` values,
nudge results) is clamped, never rejected. -/
theorem heavym_bounds_rejected_runtime_clamped :
    (∀ (d : HeavymOscDraft) (mn mx rv : ℚ),
      d.bpmMin = some mn → d.bpmMax = some mx → d.resyncValue = some rv →
      mx ≤ mn → applyHeavymOsc d = none) ∧
    (∀ (cfg : HeavymOscSettings) (a r : String) (mn mx rv : ℚ), mx ≤ mn →
      applySetHeavymOsc cfg a r mn mx rv = (cfg, false)) ∧
    (∀ (es : EngineState) (v : ℚ),
      (stepBpmCmd es (BpmCmd.set_bpm v)).tempo.bpm = clampQ v 20 300) ∧
    (∀ (es : EngineState) (d : ℚ),
      (stepBpmCmd es (BpmCmd.nudge d)).tempo.bpm = clampQ (es.tempo.bpm + d) 20 300) := by
  refine ⟨?_, ?_, fun es v => rfl, fun es d => rfl⟩
  · intro d mn mx rv h1 h2 h3 h4
    simp [applyHeavymOsc, h1, h2, h3, h4]
  · intro cfg a r mn mx rv h
    simp [applySetHeavymOsc, h]

/-- Witness for C4 at a draft with `min = 30 > max = 20` and at a
runtime `set_bpm 500` / `nudge 10`. -/
theorem heavym_bounds_rejected_witness :
    applyHeavymOsc
        { bpmAddress := "/tempo/bpm"
          resyncAddress := "/tempo/resync"
          bpmMin := some 30
          bpmMax := some 20
          resyncValue := some 1 } = none ∧
    applySetHeavymOsc sampleHeavym "/a" "/b" 30 20 1 = (sampleHeavym, false) ∧
    (stepBpmCmd defaultEngineState (BpmCmd.set_bpm 500)).tempo.bpm = clampQ 500 20 300 ∧
    (stepBpmCmd defaultEngineState (BpmCmd.nudge 10)).tempo.bpm
      = clampQ (defaultEngineState.tempo.bpm + 10) 20 300 :=
  ⟨heavym_bounds_rejected_runtime_clamped.1 _ 30 20 1 rfl rfl rfl (by norm_num),
    heavym_bounds_rejected_runtime_clamped.2.1 sampleHeavym "/a" "/b" 30 20 1 (by norm_num),
    heavym_bounds_rejected_runtime_clamped.2.2.1 defaultEngineState 500,
    heavym_bounds_rejected_runtime_clamped.2.2.2 defaultEngineState 10⟩

/-- C5: toggling or setting `round_whole_bpm` changes only that flag —
`bpm`, `beat`, `bar`, `running`, `metronome` are untouched — and only
how BPM is serialized outward: the UI offers `±1.0` nudge steps when
the flag is on and adds `±0.1` steps when off, and the displayed BPM is
integer-quantized when on and quantized to one decimal when off. -/
theorem rounding_flag_only_affects_serialization :
    (∀ s : TempoState,
      (toggle_round_whole_bpm s).bpm = s.bpm ∧
      (toggle_round_whole_bpm s).beat = s.beat ∧
      (toggle_round_whole_bpm s).bar = s.bar ∧
      (toggle_round_whole_bpm s).running = s.running ∧
      (toggle_round_whole_bpm s).metronome = s.metronome ∧
      (toggle_round_whole_bpm s).round_whole_bpm = !s.round_whole_bpm) ∧
    (∀ (e : Bool) (s : TempoState),
      (set_round_whole_bpm e s).bpm = s.bpm ∧
      (set_round_whole_bpm e s).beat = s.beat ∧
      (set_round_whole_bpm e s).bar = s.bar ∧
      (set_round_whole_bpm e s).running = s.running ∧
      (set_round_whole_bpm e s).metronome = s.metronome ∧
      (set_round_whole_bpm e s).round_whole_bpm = e) ∧
    (nudgeButtons true).map Prod.snd = [-1, 1] ∧
    (nudgeButtons false).map Prod.snd = [-1, -1/10, 1/10, 1] ∧
    (∀ b : ℚ, ∃ n : ℤ, displayedBpm true b = (n : ℚ)) ∧
    (∀ b : ℚ, ∃ n : ℤ, displayedBpm false b = (n : ℚ) / 10) := by
  refine ⟨fun s => ⟨rfl, rfl, rfl, rfl, rfl, rfl⟩,
    fun e s => ⟨rfl, rfl, rfl, rfl, rfl, rfl⟩, rfl, rfl,
    fun b => ⟨round b, rfl⟩, fun b => ⟨round (10 * b), rfl⟩⟩

/-- C6: within a running tap sequence (all gaps below the sequence
timeout), `record_tap` emits the estimate `60 / smoothed_mean(buffered
intervals)` clamped to `[20, 300]` — never discarded; a tap whose gap
is at or above the timeout clears the buffer and emits no estimate, and
the next tap of the new sequence (gap below the timeout — i.e. its
second tap) already emits an estimate again. -/
theorem tap_sequence_estimate_and_timeout (st : EstimatorState) (t p : ℚ)
    (h : st.lastTap = some p) :
    (t - p < sequenceTimeout →
      (record_tap t st).2
        = some (clampQ (60 / meanQ (record_tap t st).1.buffer) 20 300)) ∧
    (sequenceTimeout ≤ t - p →
      (record_tap t st).1 = { lastTap := some t, buffer := [] } ∧
      (record_tap t st).2 = none ∧
      (∀ t2 : ℚ, t2 - t < sequenceTimeout →
        (record_tap t2 (record_tap t st).1).2
          = some (clampQ
              (60 / meanQ (record_tap t2 (record_tap t st).1).1.buffer) 20 300))) := by
  constructor
  · intro hlt
    exact (record_tap_in_sequence st t p h hlt).2
  · intro hge
    have hr : record_tap t st = ({ lastTap := some t, buffer := [] }, none) := by
      obtain ⟨lt, bufl⟩ := st
      simp only at h
      subst h
      simp only [record_tap]
      rw [if_pos hge]
    refine ⟨by rw [hr], by rw [hr], ?_⟩
    intro t2 hlt2
    have h2 : (record_tap t st).1.lastTap = some t := by rw [hr]
    exact (record_tap_in_sequence (record_tap t st).1 t2 t h2 hlt2).2

/-- Witness for C6: taps at `0` and `0.5` s (gap below the 2 s timeout)
produce the clamped estimate; a tap at `3` s after a tap at `0`
(gap ≥ timeout) clears the buffer and yields none. -/
theorem tap_sequence_witness :
    (record_tap (1/2) { lastTap := some 0, buffer := [] }).2
      = some (clampQ
          (60 / meanQ (record_tap (1/2) { lastTap := some 0, buffer := [] }).1.buffer)
          20 300) ∧
    (record_tap 3 { lastTap := some 0, buffer := [1/2] }).2 = none :=
  ⟨(tap_sequence_estimate_and_timeout _ (1/2) 0 rfl).1 (by norm_num [sequenceTimeout]),
    ((tap_sequence_estimate_and_timeout _ 3 0 rfl).2 (by norm_num [sequenceTimeout])).2.1⟩

/-- C7: for BPM inside the engine range, `halve()` / `double()` yield
`clamp(bpm/2, 20, 300)` / `clamp(bpm*2, 20, 300)`, and realizing them
through the session protocol as the UI does — sending `set_bpm` with
`bpm/2` (resp. `bpm*2`), since the inbound intent list has no
halve/double message — produces exactly the same resulting BPM. -/
theorem halve_double_refines_set_bpm (es : EngineState)
    (h1 : 20 ≤ es.tempo.bpm) (h2 : es.tempo.bpm ≤ 300) :
    halveButtonMsg es.tempo = ControlMsg.set_bpm (es.tempo.bpm / 2) ∧
    doubleButtonMsg es.tempo = ControlMsg.set_bpm (es.tempo.bpm * 2) ∧
    (stepBpmCmd es (BpmCmd.set_bpm (es.tempo.bpm / 2))).tempo.bpm
      = (stepBpmCmd es BpmCmd.halve).tempo.bpm ∧
    (stepBpmCmd es (BpmCmd.set_bpm (es.tempo.bpm * 2))).tempo.bpm
      = (stepBpmCmd es BpmCmd.double).tempo.bpm ∧
    (stepBpmCmd es BpmCmd.halve).tempo.bpm = clampQ (es.tempo.bpm / 2) 20 300 ∧
    (stepBpmCmd es BpmCmd.double).tempo.bpm = clampQ (es.tempo.bpm * 2) 20 300 :=
  ⟨rfl, rfl, rfl, rfl, rfl, rfl⟩

/-- Witness for C7 at the default state (BPM 120). -/
theorem halve_double_refines_witness :
    (stepBpmCmd defaultEngineState
        (BpmCmd.set_bpm (defaultEngineState.tempo.bpm / 2))).tempo.bpm
      = (stepBpmCmd defaultEngineState BpmCmd.halve).tempo.bpm ∧
    (stepBpmCmd defaultEngineState BpmCmd.double).tempo.bpm
      = clampQ (defaultEngineState.tempo.bpm * 2) 20 300 :=
  ⟨(halve_double_refines_set_bpm defaultEngineState (by decide) (by decide)).2.2.1,
    (halve_double_refines_set_bpm defaultEngineState (by decide) (by decide)).2.2.2.2.2⟩

/-- C8: while an output's RoutingEntry has `enabled = false` it receives
no packet on any state change; with `enabled = true` every message its
adapter produces for the current state is sent, so after re-enabling,
sends resume with the current state on the very next state change.  The
trace-level conjunct: over any sequence of state-changed events the
packets an output receives are exactly its adapter's messages for the
events at which it was enabled (enablement is consulted at send time). -/
theorem disabled_output_receives_nothing :
    (∀ (rt : RoutingTable) (cfg : OscConfig) (s : TempoState) (o : OutputName),
      (rt o).enabled = false →
        ∀ m : OscMsg, (o, m) ∉ stateChangeSends rt cfg s) ∧
    (∀ (rt : RoutingTable) (cfg : OscConfig) (s : TempoState) (o : OutputName),
      (rt o).enabled = true →
        adapterBpmSends o cfg s ≠ [] ∧
        ∀ m ∈ adapterBpmSends o cfg s, (o, m) ∈ stateChangeSends rt cfg s) ∧
    (∀ (o : OutputName) (evs : List ChangeEvent),
      sentTo o evs
        = (evs.filter fun e => (e.rt o).enabled).flatMap
            fun e => adapterBpmSends o e.cfg e.s) := by
  refine ⟨?_, ?_, sentTo_filter_enabled⟩
  · intro rt cfg s o ho m hm
    have hmem : m ∈ (stateChangeSends rt cfg s).filterMap
        (fun p => if p.1 = o then some p.2 else none) :=
      List.mem_filterMap.mpr ⟨(o, m), hm, by simp⟩
    rw [stateChange_sentTo_single, ho] at hmem
    simp at hmem
  · intro rt cfg s o ho
    constructor
    · cases o <;> simp [adapterBpmSends]
    · intro m hm
      have hmem : m ∈ (stateChangeSends rt cfg s).filterMap
          (fun p => if p.1 = o then some p.2 else none) := by
        rw [stateChange_sentTo_single, ho]
        simpa using hm
      obtain ⟨⟨o1, m1⟩, hp, hf⟩ := List.mem_filterMap.mp hmem
      by_cases heq : o1 = o
      · subst heq
        simp at hf
        subst hf
        exact hp
      · simp [heq] at hf

/-- Witness for C8: with HeavyM disabled it receives nothing; with all
outputs enabled, Resolume's normalized-tempo packet is sent. -/
theorem disabled_output_witness :
    (∀ m : OscMsg,
      (OutputName.heavym, m)
        ∉ stateChangeSends sampleRtHeavymOff sampleCfg defaultTempoState) ∧
    (OutputName.resolume,
        OscMsg.resolumeTempo
          (normalizeBpm defaultTempoState.bpm resolumeBpmMin resolumeBpmMax))
      ∈ stateChangeSends sampleRt sampleCfg defaultTempoState :=
  ⟨disabled_output_receives_nothing.1 sampleRtHeavymOff sampleCfg defaultTempoState
      OutputName.heavym rfl,
    (disabled_output_receives_nothing.2.1 sampleRt sampleCfg defaultTempoState
        OutputName.resolume rfl).2 _ (by simp [adapterBpmSends])⟩

/-- C9 as frozen is false: two activations less than 22 ms apart where
the second DOES send a tap — with `lastTapSentAt = 0`, an activation at
21 ms is itself throttled (sends nothing, leaving `lastTapSentAt` at 0),
so the following activation at 41 ms — only 20 ms later — passes the
`now - lastTapSentAt < 22` check and transmits. -/
theorem emitTap_pair_counterexample :
    (41 : ℚ) - 21 < 22 ∧ (emitTap 21 0).1 = false ∧
    (emitTap 41 (emitTap 21 0).2).1 = true := by
  refine ⟨by norm_num, ?_, ?_⟩ <;>
    norm_num [emitTap]

/-- C9 (amended): when a tap activation actually transmits, any second
activation less than 22 ms later sends no tap message; in general, the
tap messages `emitTap` transmits over any activation trace are pairwise
at least 22 ms apart — at most one per 22 ms window. -/
theorem emitTap_throttle_amended (last t1 t2 : ℚ)
    (h1 : (emitTap t1 last).1 = true) (h2 : t2 - t1 < 22) :
    (emitTap t2 (emitTap t1 last).2).1 = false ∧
    (∀ (l0 : ℚ) (ts : List ℚ),
      List.Chain' (fun a b => a + 22 ≤ b) (runTaps l0 ts)) := by
  refine ⟨?_, fun l0 ts => runTaps_chain ts l0⟩
  have hc : ¬ (t1 - last < 22) := by
    intro hc
    simp [emitTap, hc] at h1
  have hsnd : (emitTap t1 last).2 = t1 := by
    simp [emitTap, hc]
  rw [hsnd]
  simp [emitTap, h2]

/-- Witness for the amended C9: a send at 30 ms (after `lastTapSentAt =
0`) throttles an activation at 51 ms. -/
theorem emitTap_throttle_witness :
    (emitTap 51 (emitTap 30 0).2).1 = false :=
  (emitTap_throttle_amended 0 30 51 (by norm_num [emitTap]) (by norm_num)).1

/-- C10: when the WebSocket handle is null or not in the OPEN state, the
frontend `send` transmits nothing — commands issued while disconnected
are silently dropped (and `send` is a total function: it returns on
every input rather than raising). -/
theorem send_drops_when_not_open (ws : Option WebSocketHandle) (m : ControlMsg)
    (h : ∀ w, ws = some w → w.readyState ≠ WsReadyState.OPEN) :
    send ws m = [] := by
  cases ws with
  | none => rfl
  | some w =>
    have hne := h w rfl
    simp [send, hne]

/-- Witness for C10 on a CLOSED handle and on a null handle. -/
theorem send_drops_witness :
    send (some { readyState := WsReadyState.CLOSED }) ControlMsg.tap = [] ∧
    send none ControlMsg.resyncCmd = [] :=
  ⟨send_drops_when_not_open _ _ (fun w hw => by cases hw; simp),
    send_drops_when_not_open _ _ (fun w hw => by cases hw)⟩

end BpmTapSync
